import Mathlib

/-!
Shallow embedding of `SceneManager.cpp` (CS-330 scene renderer core):
the texture registry, material registry, shader render state and the
transform composer, together with theorems settling the spec's claims.

Conventions of the embedding:
* Machine `int` / `GLuint` values are modelled as `Int` (no arithmetic in
  the source ever overflows: indices stay below the registry size and
  texture names are small positive numbers issued by the driver).
* Float-valued material data is modelled over `ℚ` — the source only
  stores and copies these values, never computes with them — while the
  transform composer, which does real trigonometry, is modelled over `ℝ`.
* The OpenGL driver is modelled by `GLContext`: `glGenTextures` issues a
  fresh, never-before-issued positive texture name and records it as a
  live texture object; `glDeleteTextures` would remove a name from the
  live set (the source never calls it).
* `ShaderManager` uniform writes are modelled as field updates on an
  explicit `RenderState` record, one field per uniform name the source
  writes.  The `m_pShaderManager != NULL` guard is always taken: the
  render state exists.
-/

namespace SceneMgr

/-- `glm::vec3` as used for material colors (stored, never computed with). -/
structure Vec3q where
  x : ℚ
  y : ℚ
  z : ℚ
deriving DecidableEq, Repr

/-- The `TEXTURE_ID` struct: a GPU texture name paired with its tag. -/
structure TEXTURE_ID where
  ID : Int
  tag : String
deriving DecidableEq, Repr

/-- The `OBJECT_MATERIAL` struct. -/
structure OBJECT_MATERIAL where
  diffuseColor : Vec3q
  specularColor : Vec3q
  shininess : ℚ
  tag : String
deriving DecidableEq, Repr

/-- Modelled OpenGL driver state: the next unused texture name and the
names of the currently allocated (live) texture objects. -/
structure GLContext where
  nextName : Int
  live : List Int
deriving DecidableEq, Repr

/-- `glGenTextures(1, &id)`: issues the next unused name and records the
new texture object as allocated. -/
def glGenTexture (gl : GLContext) : Int × GLContext :=
  (gl.nextName, { nextName := gl.nextName + 1, live := gl.nextName :: gl.live })

/-- The `SceneManager` members the claims touch: the texture registry
(`m_textureIDs[0 .. m_loadedTextures)` as a list), the material registry
`m_objectMaterials`, and the ambient GL driver state. -/
structure SceneState where
  gl : GLContext
  textureIDs : List TEXTURE_ID
  objectMaterials : List OBJECT_MATERIAL
deriving DecidableEq, Repr

/-- Result of the external image loader (`stbi_load`): width, height and
channel count of the decoded pixel buffer.  The pixel bytes themselves are
irrelevant to every claim. -/
structure Image where
  width : Int
  height : Int
  channels : Int
deriving DecidableEq, Repr

/-- `SceneManager::CreateGLTexture`.  `img = none` models a decode
failure (`stbi_load` returned null).  On a successful decode the source
first calls `glGenTextures` (so the name is consumed — and leaked — even
on the unsupported-channel-count path), then uploads only when the
channel count is 3 or 4, and only then appends
`m_textureIDs[m_loadedTextures] = {ID, tag}` with no capacity check. -/
def createGLTexture (s : SceneState) (img : Option Image) (tag : String) :
    SceneState × Bool :=
  match img with
  | none => (s, false)
  | some im =>
    let p := glGenTexture s.gl
    if im.channels = 3 ∨ im.channels = 4 then
      ({ s with gl := p.2, textureIDs := s.textureIDs ++ [⟨p.1, tag⟩] }, true)
    else
      ({ s with gl := p.2 }, false)

/-- The scan loop of `SceneManager::FindTextureID`: first tag match wins,
`-1` when the tag is absent. -/
def findTextureIDAux : List TEXTURE_ID → String → Int
  | [], _ => -1
  | e :: rest, tag => if e.tag = tag then e.ID else findTextureIDAux rest tag

/-- `SceneManager::FindTextureID`. -/
def findTextureID (s : SceneState) (tag : String) : Int :=
  findTextureIDAux s.textureIDs tag

/-- The scan loop of `SceneManager::FindTextureSlot` with the running
`index` made explicit; first tag match returns its index, `-1` when the
tag is absent. -/
def findTextureSlotAux : List TEXTURE_ID → String → Int → Int
  | [], _, _ => -1
  | e :: rest, tag, i =>
    if e.tag = tag then i else findTextureSlotAux rest tag (i + 1)

/-- `SceneManager::FindTextureSlot`. -/
def findTextureSlot (s : SceneState) (tag : String) : Int :=
  findTextureSlotAux s.textureIDs tag 0

/-- `SceneManager::DestroyGLTextures` loop body: for each registered
entry the source executes `glGenTextures(1, &m_textureIDs[i].ID)` —
generating a fresh texture object into the entry — and never calls
`glDeleteTextures`. -/
def destroyGLTexturesAux : GLContext → List TEXTURE_ID → GLContext × List TEXTURE_ID
  | gl, [] => (gl, [])
  | gl, e :: rest =>
    let p := glGenTexture gl
    let q := destroyGLTexturesAux p.2 rest
    (q.1, { e with ID := p.1 } :: q.2)

/-- `SceneManager::DestroyGLTextures`. -/
def destroyGLTextures (s : SceneState) : SceneState :=
  let p := destroyGLTexturesAux s.gl s.textureIDs
  { s with gl := p.1, textureIDs := p.2 }

/-- The scan loop of `SceneManager::FindMaterial`: on the first tag match
the source copies `diffuseColor`, `specularColor` and `shininess` (but not
`tag`) into the caller's out-parameter and stops; otherwise the
out-parameter is left untouched. -/
def findMaterialScan : List OBJECT_MATERIAL → String → OBJECT_MATERIAL → OBJECT_MATERIAL
  | [], _, m => m
  | e :: rest, tag, m =>
    if e.tag = tag then
      { m with diffuseColor := e.diffuseColor,
               specularColor := e.specularColor,
               shininess := e.shininess }
    else findMaterialScan rest tag m

/-- `SceneManager::FindMaterial`.  Returns the C++ return value paired
with the out-parameter's final contents.  Faithful to the source: after
the scan loop the function executes `return(true)` unconditionally, so it
returns `true` for every nonempty registry, found or not. -/
def findMaterial (s : SceneState) (tag : String) (material : OBJECT_MATERIAL) :
    Bool × OBJECT_MATERIAL :=
  if s.objectMaterials.length = 0 then (false, material)
  else (true, findMaterialScan s.objectMaterials tag material)

/-- A 4×4 real matrix, acting on column vectors, as GLM matrices do
mathematically (GLM's `Result[c][r]` storage is the entry at row `r`,
column `c`). -/
abbrev Mat4 := Matrix (Fin 4) (Fin 4) ℝ

/-- The shader's uniform store (`ShaderManager`), one field per uniform
name the source writes: `model`, `objectColor`, `bUseTexture`,
`objectTexture` (sampler slot index), `bUseLighting`, the three
`material.*` uniforms and `UVscale`. -/
structure RenderState where
  model : Mat4
  objectColor : Vec3q × ℚ
  bUseTexture : Bool
  objectTexture : Int
  bUseLighting : Bool
  diffuseColor : Vec3q
  specularColor : Vec3q
  shininess : ℚ
  uvScale : ℚ × ℚ

/-- `SceneManager::SetShaderTexture`: unconditionally sets the shared
`bUseTexture` flag to true, then writes whatever `FindTextureSlot`
returned (the slot, or `-1` on a miss) as the sampler uniform. -/
def setShaderTexture (s : SceneState) (rs : RenderState) (textureTag : String) :
    RenderState :=
  { rs with bUseTexture := true, objectTexture := findTextureSlot s textureTag }

/-- `SceneManager::SetShaderColor`: clears the shared `bUseTexture` flag
and writes the flat color uniform. -/
def setShaderColor (rs : RenderState) (r g b a : ℚ) : RenderState :=
  { rs with bUseTexture := false, objectColor := (⟨r, g, b⟩, a) }

/-- `SceneManager::SetShaderMaterial`.  `junk` models the contents of the
uninitialized local `OBJECT_MATERIAL material;` the source declares: C++
leaves its numeric members indeterminate, so the embedding takes them as
an arbitrary parameter.  When `FindMaterial` reports success the three
material uniforms are overwritten from the out-parameter. -/
def setShaderMaterial (s : SceneState) (rs : RenderState)
    (junk : OBJECT_MATERIAL) (materialTag : String) : RenderState :=
  if 0 < s.objectMaterials.length then
    let r := findMaterial s materialTag junk
    if r.1 = true then
      { rs with diffuseColor := r.2.diffuseColor,
                specularColor := r.2.specularColor,
                shininess := r.2.shininess }
    else rs
  else rs

/-! ### Transform composer

`SceneManager::SetTransformations` builds the model matrix from GLM
primitives.  `glmScale`, `glmTranslate` and `glmRotate` below transcribe
GLM's `scale(vec3)`, `translate(vec3)` and `rotate(angle, axis)` (the
`gtx/transform` single-argument forms, i.e. applied to the identity):
`rotate` normalizes the axis and fills in the axis-angle (Rodrigues)
matrix.  Entries are written row by row; GLM's column-major
`Result[c][r]` is our row `r`, column `c`. -/

/-- A `glm::vec3` of real components, as consumed by the transform
composer. -/
structure Vec3r where
  x : ℝ
  y : ℝ
  z : ℝ

/-- `glm::radians`: degrees to radians. -/
noncomputable def radians (degrees : ℝ) : ℝ := degrees * (Real.pi / 180)

/-- `glm::scale(v)`: diagonal scaling matrix. -/
noncomputable def glmScale (v : Vec3r) : Mat4 :=
  Matrix.of ![![v.x, 0, 0, 0],
              ![0, v.y, 0, 0],
              ![0, 0, v.z, 0],
              ![0, 0, 0, 1]]

/-- `glm::translate(v)`: identity with `v` in the fourth column. -/
noncomputable def glmTranslate (v : Vec3r) : Mat4 :=
  Matrix.of ![![1, 0, 0, v.x],
              ![0, 1, 0, v.y],
              ![0, 0, 1, v.z],
              ![0, 0, 0, 1]]

/-- `glm::normalize` on a `vec3`. -/
noncomputable def glmNormalize (v : Vec3r) : Vec3r :=
  let len := Real.sqrt (v.x * v.x + v.y * v.y + v.z * v.z)
  ⟨v.x / len, v.y / len, v.z / len⟩

/-- `glm::rotate(angle, axis)`: normalize the axis, then the axis-angle
rotation matrix with `c = cos angle`, `s = sin angle`,
`temp = (1 - c) · axis`. -/
noncomputable def glmRotate (angle : ℝ) (axis : Vec3r) : Mat4 :=
  let c := Real.cos angle
  let s := Real.sin angle
  let a := glmNormalize axis
  let t : Vec3r := ⟨(1 - c) * a.x, (1 - c) * a.y, (1 - c) * a.z⟩
  Matrix.of ![![c + t.x * a.x,     t.y * a.x - s * a.z, t.z * a.x + s * a.y, 0],
              ![t.x * a.y + s * a.z, c + t.y * a.y,     t.z * a.y - s * a.x, 0],
              ![t.x * a.z - s * a.y, t.y * a.z + s * a.x, c + t.z * a.z,     0],
              ![0, 0, 0, 1]]

/-- The model matrix `SetTransformations` computes:
`modelView = translation * rotationZ * rotationY * rotationX * scale`,
each rotation built by `glm::rotate` from the degree angle converted by
`glm::radians`, about axes `(1,0,0)`, `(0,1,0)`, `(0,0,1)`. -/
noncomputable def composeModel (scaleXYZ : Vec3r)
    (XrotationDegrees YrotationDegrees ZrotationDegrees : ℝ)
    (positionXYZ : Vec3r) : Mat4 :=
  glmTranslate positionXYZ *
    glmRotate (radians ZrotationDegrees) ⟨0, 0, 1⟩ *
    glmRotate (radians YrotationDegrees) ⟨0, 1, 0⟩ *
    glmRotate (radians XrotationDegrees) ⟨1, 0, 0⟩ *
    glmScale scaleXYZ

/-- `SceneManager::SetTransformations`: computes `composeModel` and
pushes it as the `model` uniform. -/
noncomputable def setTransformations (rs : RenderState) (scaleXYZ : Vec3r)
    (XrotationDegrees YrotationDegrees ZrotationDegrees : ℝ)
    (positionXYZ : Vec3r) : RenderState :=
  { rs with model := (composeModel scaleXYZ
      XrotationDegrees YrotationDegrees ZrotationDegrees positionXYZ) }

/-! ### Spec-side rotation matrices

The spec states each rotation factor is "about the corresponding standard
basis axis"; these are the textbook basis-axis rotation matrices, written
independently of `glmRotate`, for the refinement statement of the
composition claim. -/

/-- Rotation about the x-axis by `θ` radians (spec's `RotateX`). -/
noncomputable def specRotateX (θ : ℝ) : Mat4 :=
  Matrix.of ![![1, 0, 0, 0],
              ![0, Real.cos θ, -Real.sin θ, 0],
              ![0, Real.sin θ, Real.cos θ, 0],
              ![0, 0, 0, 1]]

/-- Rotation about the y-axis by `θ` radians (spec's `RotateY`). -/
noncomputable def specRotateY (θ : ℝ) : Mat4 :=
  Matrix.of ![![Real.cos θ, 0, Real.sin θ, 0],
              ![0, 1, 0, 0],
              ![-Real.sin θ, 0, Real.cos θ, 0],
              ![0, 0, 0, 1]]

/-- Rotation about the z-axis by `θ` radians (spec's `RotateZ`). -/
noncomputable def specRotateZ (θ : ℝ) : Mat4 :=
  Matrix.of ![![Real.cos θ, -Real.sin θ, 0, 0],
              ![Real.sin θ, Real.cos θ, 0, 0],
              ![0, 0, 1, 0],
              ![0, 0, 0, 1]]

/-- Translation by `v` (spec's `Translate`). -/
noncomputable def specTranslate (v : Vec3r) : Mat4 :=
  1 + Matrix.of ![![0, 0, 0, v.x],
                  ![0, 0, 0, v.y],
                  ![0, 0, 0, v.z],
                  ![0, 0, 0, 0]]

/-- Scaling by `v` (spec's `Scale`). -/
noncomputable def specScale (v : Vec3r) : Mat4 :=
  Matrix.diagonal ![v.x, v.y, v.z, 1]

/-! ### Registry scan lemmas -/

theorem findTextureIDAux_not_found (l : List TEXTURE_ID) (t : String)
    (h : t ∉ l.map TEXTURE_ID.tag) : findTextureIDAux l t = -1 := by
  induction l with
  | nil => rfl
  | cons e rest ih =>
    simp only [List.map_cons, List.mem_cons, not_or] at h
    have hne : ¬(e.tag = t) := fun he => h.1 he.symm
    simp only [findTextureIDAux, if_neg hne]
    exact ih h.2

theorem findTextureSlotAux_not_found (l : List TEXTURE_ID) (t : String)
    (i : Int) (h : t ∉ l.map TEXTURE_ID.tag) :
    findTextureSlotAux l t i = -1 := by
  induction l generalizing i with
  | nil => rfl
  | cons e rest ih =>
    simp only [List.map_cons, List.mem_cons, not_or] at h
    have hne : ¬(e.tag = t) := fun he => h.1 he.symm
    simp only [findTextureSlotAux, if_neg hne]
    exact ih (i + 1) h.2

theorem findTextureIDAux_append_fresh (l : List TEXTURE_ID) (e : TEXTURE_ID)
    (h : e.tag ∉ l.map TEXTURE_ID.tag) :
    findTextureIDAux (l ++ [e]) e.tag = e.ID := by
  induction l with
  | nil => simp [findTextureIDAux]
  | cons f rest ih =>
    simp only [List.map_cons, List.mem_cons, not_or] at h
    have hne : ¬(f.tag = e.tag) := fun hf => h.1 hf.symm
    calc findTextureIDAux ((f :: rest) ++ [e]) e.tag
        = findTextureIDAux (rest ++ [e]) e.tag := by
          rw [List.cons_append]
          simp only [findTextureIDAux, if_neg hne]
      _ = e.ID := ih h.2

theorem findTextureSlotAux_append_fresh (l : List TEXTURE_ID) (e : TEXTURE_ID)
    (i : Int) (h : e.tag ∉ l.map TEXTURE_ID.tag) :
    findTextureSlotAux (l ++ [e]) e.tag i = i + l.length := by
  induction l generalizing i with
  | nil => simp [findTextureSlotAux]
  | cons f rest ih =>
    simp only [List.map_cons, List.mem_cons, not_or] at h
    have hne : ¬(f.tag = e.tag) := fun hf => h.1 hf.symm
    calc findTextureSlotAux ((f :: rest) ++ [e]) e.tag i
        = findTextureSlotAux (rest ++ [e]) e.tag (i + 1) := by
          rw [List.cons_append]
          simp only [findTextureSlotAux, if_neg hne]
      _ = (i + 1) + rest.length := ih (i + 1) h.2
      _ = i + ((f :: rest).length : Int) := by
          rw [List.length_cons]
          push_cast
          ring

/-! ### Claims about the texture registry -/

/-- C1: a successful registration of a fresh tag appends an entry carrying
the handle produced by `glGenTextures` during that call; `findTextureID`
with the same tag then returns exactly that handle, and `findTextureSlot`
returns the entry's 0-based registration order (the n-th successful
registration, `n = ` prior registry size, receives slot `n`). -/
theorem register_find_roundtrip (s : SceneState) (im : Image) (t : String)
    (hch : im.channels = 3 ∨ im.channels = 4)
    (hfresh : t ∉ s.textureIDs.map TEXTURE_ID.tag) :
    (createGLTexture s (some im) t).2 = true ∧
    (createGLTexture s (some im) t).1.textureIDs =
      s.textureIDs ++ [⟨s.gl.nextName, t⟩] ∧
    findTextureID (createGLTexture s (some im) t).1 t = s.gl.nextName ∧
    findTextureSlot (createGLTexture s (some im) t).1 t =
      (s.textureIDs.length : Int) := by
  have hid : findTextureIDAux (s.textureIDs ++ [⟨s.gl.nextName, t⟩]) t =
      s.gl.nextName :=
    findTextureIDAux_append_fresh s.textureIDs ⟨s.gl.nextName, t⟩ hfresh
  have hslot : findTextureSlotAux (s.textureIDs ++ [⟨s.gl.nextName, t⟩]) t 0 =
      0 + (s.textureIDs.length : Int) :=
    findTextureSlotAux_append_fresh s.textureIDs ⟨s.gl.nextName, t⟩ 0 hfresh
  have hres : createGLTexture s (some im) t =
      (SceneState.mk ⟨s.gl.nextName + 1, s.gl.nextName :: s.gl.live⟩
        (s.textureIDs ++ [⟨s.gl.nextName, t⟩]) s.objectMaterials, true) := by
    simp only [createGLTexture, glGenTexture, if_pos hch]
  rw [hres]
  refine ⟨rfl, rfl, hid, ?_⟩
  show findTextureSlotAux (s.textureIDs ++ [⟨s.gl.nextName, t⟩]) t 0 =
    (s.textureIDs.length : Int)
  rw [hslot]
  ring

/-- Witness for C1 at a registry already holding one texture: the fresh
tag "paver" receives slot 1 and its handle (2) is returned by lookup. -/
theorem register_find_roundtrip_witness :
    ((Image.mk 8 8 4).channels = 3 ∨ (Image.mk 8 8 4).channels = 4) ∧
    "paver" ∉ (SceneState.mk ⟨2, [1]⟩ [⟨1, "moss"⟩] []).textureIDs.map
      TEXTURE_ID.tag ∧
    ((createGLTexture (SceneState.mk ⟨2, [1]⟩ [⟨1, "moss"⟩] [])
        (some (Image.mk 8 8 4)) "paver").2 = true ∧
      (createGLTexture (SceneState.mk ⟨2, [1]⟩ [⟨1, "moss"⟩] [])
        (some (Image.mk 8 8 4)) "paver").1.textureIDs =
        [⟨1, "moss"⟩, ⟨2, "paver"⟩] ∧
      findTextureID (createGLTexture (SceneState.mk ⟨2, [1]⟩ [⟨1, "moss"⟩] [])
        (some (Image.mk 8 8 4)) "paver").1 "paver" = 2 ∧
      findTextureSlot (createGLTexture (SceneState.mk ⟨2, [1]⟩ [⟨1, "moss"⟩] [])
        (some (Image.mk 8 8 4)) "paver").1 "paver" = 1) :=
  ⟨by decide, by decide,
    register_find_roundtrip (SceneState.mk ⟨2, [1]⟩ [⟨1, "moss"⟩] [])
      (Image.mk 8 8 4) "paver" (by decide) (by decide)⟩

/-- C4: registration with a decoded channel count outside 3 and 4 returns
failure, leaves the registry unchanged, and the tag (assuming it was not
already registered) keeps yielding the not-found sentinel `-1` from both
lookups. -/
theorem register_bad_channels (s : SceneState) (im : Image) (t : String)
    (hch : im.channels ≠ 3 ∧ im.channels ≠ 4)
    (hfresh : t ∉ s.textureIDs.map TEXTURE_ID.tag) :
    (createGLTexture s (some im) t).2 = false ∧
    (createGLTexture s (some im) t).1.textureIDs = s.textureIDs ∧
    findTextureID (createGLTexture s (some im) t).1 t = -1 ∧
    findTextureSlot (createGLTexture s (some im) t).1 t = -1 := by
  have hnot : ¬(im.channels = 3 ∨ im.channels = 4) := by
    intro hc
    rcases hc with hc | hc
    · exact hch.1 hc
    · exact hch.2 hc
  have hres : createGLTexture s (some im) t =
      (SceneState.mk ⟨s.gl.nextName + 1, s.gl.nextName :: s.gl.live⟩
        s.textureIDs s.objectMaterials, false) := by
    simp only [createGLTexture, glGenTexture, if_neg hnot]
  rw [hres]
  exact ⟨rfl, rfl, findTextureIDAux_not_found s.textureIDs t hfresh,
    findTextureSlotAux_not_found s.textureIDs t 0 hfresh⟩

/-- Witness for C4: a 2-channel image fails to register and its tag stays
unresolvable. -/
theorem register_bad_channels_witness :
    ((Image.mk 8 8 2).channels ≠ 3 ∧ (Image.mk 8 8 2).channels ≠ 4) ∧
    "gray" ∉ (SceneState.mk ⟨2, [1]⟩ [⟨1, "moss"⟩] []).textureIDs.map
      TEXTURE_ID.tag ∧
    ((createGLTexture (SceneState.mk ⟨2, [1]⟩ [⟨1, "moss"⟩] [])
        (some (Image.mk 8 8 2)) "gray").2 = false ∧
      (createGLTexture (SceneState.mk ⟨2, [1]⟩ [⟨1, "moss"⟩] [])
        (some (Image.mk 8 8 2)) "gray").1.textureIDs = [⟨1, "moss"⟩] ∧
      findTextureID (createGLTexture (SceneState.mk ⟨2, [1]⟩ [⟨1, "moss"⟩] [])
        (some (Image.mk 8 8 2)) "gray").1 "gray" = -1 ∧
      findTextureSlot (createGLTexture (SceneState.mk ⟨2, [1]⟩ [⟨1, "moss"⟩] [])
        (some (Image.mk 8 8 2)) "gray").1 "gray" = -1) :=
  ⟨by decide, by decide,
    register_bad_channels (SceneState.mk ⟨2, [1]⟩ [⟨1, "moss"⟩] [])
      (Image.mk 8 8 2) "gray" (by decide) (by decide)⟩

/-- C5: for any registry state, looking up a tag that was never registered
returns the sentinel `-1` — a negative value, distinct from 0 and from
every valid slot — from both `findTextureID` and `findTextureSlot`. -/
theorem find_unregistered_sentinel (s : SceneState) (t : String)
    (hfresh : t ∉ s.textureIDs.map TEXTURE_ID.tag) :
    findTextureID s t = -1 ∧ findTextureSlot s t = -1 ∧
    findTextureID s t < 0 ∧ findTextureSlot s t < 0 := by
  have h1 := findTextureIDAux_not_found s.textureIDs t hfresh
  have h2 := findTextureSlotAux_not_found s.textureIDs t 0 hfresh
  refine ⟨h1, h2, ?_, ?_⟩
  · rw [findTextureID, h1]; decide
  · rw [findTextureSlot, h2]; decide

/-- Witness for C5 on a registry whose entry 0 occupies the valid slot 0:
the missing tag yields `-1`, not `0`. -/
theorem find_unregistered_sentinel_witness :
    "granite" ∉ (SceneState.mk ⟨3, [2, 1]⟩ [⟨1, "moss"⟩, ⟨2, "paver"⟩]
      []).textureIDs.map TEXTURE_ID.tag ∧
    (findTextureID (SceneState.mk ⟨3, [2, 1]⟩ [⟨1, "moss"⟩, ⟨2, "paver"⟩] [])
        "granite" = -1 ∧
      findTextureSlot (SceneState.mk ⟨3, [2, 1]⟩ [⟨1, "moss"⟩, ⟨2, "paver"⟩] [])
        "granite" = -1 ∧
      findTextureID (SceneState.mk ⟨3, [2, 1]⟩ [⟨1, "moss"⟩, ⟨2, "paver"⟩] [])
        "granite" < 0 ∧
      findTextureSlot (SceneState.mk ⟨3, [2, 1]⟩ [⟨1, "moss"⟩, ⟨2, "paver"⟩] [])
        "granite" < 0) :=
  ⟨by decide,
    find_unregistered_sentinel
      (SceneState.mk ⟨3, [2, 1]⟩ [⟨1, "moss"⟩, ⟨2, "paver"⟩] []) "granite"
      (by decide)⟩

/-! ### Concrete sample states used by witnesses and bug evaluations -/

/-- A registry holding one texture: name 1 under tag "moss", driver has
issued name 1 and will issue 2 next. -/
def texState : SceneState := ⟨⟨2, [1]⟩, [⟨1, "moss"⟩], []⟩

/-- A sample "glass" material (shaped like `DefineObjectMaterials`, color
components in integer units so the kernel can evaluate them). -/
def glassMaterial : OBJECT_MATERIAL := ⟨⟨7, 7, 7⟩, ⟨9, 9, 9⟩, 80, "glass"⟩

/-- A second, conflicting definition under the same tag "glass". -/
def glassMaterial2 : OBJECT_MATERIAL := ⟨⟨1, 2, 3⟩, ⟨4, 5, 6⟩, 10, "glass"⟩

/-- A sample "stone" material. -/
def stoneMaterial : OBJECT_MATERIAL := ⟨⟨2, 3, 3⟩, ⟨5, 5, 5⟩, 10, "stone"⟩

/-- Arbitrary junk standing for the indeterminate contents of the
uninitialized local `OBJECT_MATERIAL material;` in `SetShaderMaterial`. -/
def junkM : OBJECT_MATERIAL := ⟨⟨0, 0, 0⟩, ⟨0, 0, 0⟩, 0, ""⟩

/-- A material registry in which tag "glass" is defined twice with
different values. -/
def dupState : SceneState := ⟨⟨1, []⟩, [], [glassMaterial, glassMaterial2]⟩

/-- A material registry holding only the "stone" material. -/
def matState : SceneState := ⟨⟨1, []⟩, [], [stoneMaterial]⟩

/-- A prior render state with known material uniform values. -/
noncomputable def rsPrior : RenderState :=
  { model := 1, objectColor := (⟨1, 1, 1⟩, 1), bUseTexture := false,
    objectTexture := 0, bUseLighting := true,
    diffuseColor := ⟨5, 5, 5⟩, specularColor := ⟨6, 6, 6⟩, shininess := 99,
    uvScale := (1, 1) }

/-! ### Material registry scan lemma and claims -/

theorem findMaterialScan_first_match (l1 : List OBJECT_MATERIAL)
    (m1 : OBJECT_MATERIAL) (rest : List OBJECT_MATERIAL) (t : String)
    (junk : OBJECT_MATERIAL) (h1 : t ∉ l1.map OBJECT_MATERIAL.tag)
    (hm : m1.tag = t) :
    findMaterialScan (l1 ++ m1 :: rest) t junk =
      { junk with diffuseColor := m1.diffuseColor,
                  specularColor := m1.specularColor,
                  shininess := m1.shininess } := by
  induction l1 with
  | nil => simp [findMaterialScan, hm]
  | cons f l1t ih =>
    simp only [List.map_cons, List.mem_cons, not_or] at h1
    have hne : ¬(f.tag = t) := fun hf => h1.1 hf.symm
    calc findMaterialScan ((f :: l1t) ++ m1 :: rest) t junk
        = findMaterialScan (l1t ++ m1 :: rest) t junk := by
          rw [List.cons_append]
          simp only [findMaterialScan, if_neg hne]
      _ = _ := ih h1.2

/-- C6: when the same tag occurs twice in the material registry with
different values, `findMaterial` returns `true` together with the
first-defined entry's diffuse color, specular color and shininess —
insertion-order precedence, first linear-scan match — and therefore not
the second entry's values. -/
theorem material_first_match_wins (s : SceneState)
    (l1 l2 l3 : List OBJECT_MATERIAL) (m1 m2 : OBJECT_MATERIAL) (t : String)
    (junk : OBJECT_MATERIAL)
    (hsplit : s.objectMaterials = l1 ++ m1 :: (l2 ++ m2 :: l3))
    (h1 : t ∉ l1.map OBJECT_MATERIAL.tag)
    (hm1 : m1.tag = t) (hm2 : m2.tag = t)
    (hdiff : (m1.diffuseColor, m1.specularColor, m1.shininess) ≠
      (m2.diffuseColor, m2.specularColor, m2.shininess)) :
    (findMaterial s t junk).1 = true ∧
    ((findMaterial s t junk).2.diffuseColor,
      (findMaterial s t junk).2.specularColor,
      (findMaterial s t junk).2.shininess) =
      (m1.diffuseColor, m1.specularColor, m1.shininess) ∧
    ((findMaterial s t junk).2.diffuseColor,
      (findMaterial s t junk).2.specularColor,
      (findMaterial s t junk).2.shininess) ≠
      (m2.diffuseColor, m2.specularColor, m2.shininess) := by
  have hlen : ¬((l1 ++ m1 :: (l2 ++ m2 :: l3)).length = 0) := by simp
  have hscan := findMaterialScan_first_match l1 m1 (l2 ++ m2 :: l3) t junk h1 hm1
  have hfm : findMaterial s t junk =
      (true, { junk with diffuseColor := m1.diffuseColor,
                          specularColor := m1.specularColor,
                          shininess := m1.shininess }) := by
    rw [findMaterial, hsplit, if_neg hlen, hscan]
  rw [hfm]
  exact ⟨rfl, rfl, fun hc => hdiff hc⟩

/-- Witness for C6: tag "glass" defined twice; lookup returns the first
definition's values, not the second's. -/
theorem material_first_match_wins_witness :
    dupState.objectMaterials = [] ++ glassMaterial :: ([] ++ glassMaterial2 :: []) ∧
    "glass" ∉ ([] : List OBJECT_MATERIAL).map OBJECT_MATERIAL.tag ∧
    glassMaterial.tag = "glass" ∧ glassMaterial2.tag = "glass" ∧
    (glassMaterial.diffuseColor, glassMaterial.specularColor,
      glassMaterial.shininess) ≠
      (glassMaterial2.diffuseColor, glassMaterial2.specularColor,
        glassMaterial2.shininess) ∧
    ((findMaterial dupState "glass" junkM).1 = true ∧
      ((findMaterial dupState "glass" junkM).2.diffuseColor,
        (findMaterial dupState "glass" junkM).2.specularColor,
        (findMaterial dupState "glass" junkM).2.shininess) =
        (glassMaterial.diffuseColor, glassMaterial.specularColor,
          glassMaterial.shininess) ∧
      ((findMaterial dupState "glass" junkM).2.diffuseColor,
        (findMaterial dupState "glass" junkM).2.specularColor,
        (findMaterial dupState "glass" junkM).2.shininess) ≠
        (glassMaterial2.diffuseColor, glassMaterial2.specularColor,
          glassMaterial2.shininess)) :=
  ⟨by decide, by decide, by decide, by decide, by decide,
    material_first_match_wins dupState [] [] [] glassMaterial glassMaterial2
      "glass" junkM (by decide) (by decide) (by decide) (by decide) (by decide)⟩

/-- C3 (code bug): with a nonempty material registry and a tag absent
from it, `FindMaterial` still returns `true` (its final `return(true)` is
unconditional), so `SetShaderMaterial` overwrites the three material
uniforms with the never-initialized local's contents instead of leaving
the prior values in effect: here the prior diffuse color (5,5,5) is
replaced by the junk value (0,0,0) on a lookup miss for "marble". -/
theorem setShaderMaterial_miss_overwrites :
    (findMaterial matState "marble" junkM).1 = true ∧
    (setShaderMaterial matState rsPrior junkM "marble").diffuseColor =
      junkM.diffuseColor ∧
    (setShaderMaterial matState rsPrior junkM "marble").diffuseColor ≠
      rsPrior.diffuseColor ∧
    (setShaderMaterial matState rsPrior junkM "marble").shininess ≠
      rsPrior.shininess := by
  refine ⟨rfl, rfl, ?_, ?_⟩ <;> decide

/-! ### Shader-texture claim -/

/-- C10: `SetShaderTexture` with a tag absent from the texture registry
still sets the shared `bUseTexture` flag to true and writes the not-found
sentinel `-1` as the sampler slot uniform; every other uniform is left as
it was and no error is reported. -/
theorem setShaderTexture_miss (s : SceneState) (rs : RenderState) (t : String)
    (hfresh : t ∉ s.textureIDs.map TEXTURE_ID.tag) :
    (setShaderTexture s rs t).bUseTexture = true ∧
    (setShaderTexture s rs t).objectTexture = -1 ∧
    (setShaderTexture s rs t).model = rs.model ∧
    (setShaderTexture s rs t).diffuseColor = rs.diffuseColor ∧
    (setShaderTexture s rs t).objectColor = rs.objectColor := by
  refine ⟨rfl, ?_, rfl, rfl, rfl⟩
  show findTextureSlot s t = -1
  exact findTextureSlotAux_not_found s.textureIDs t 0 hfresh

/-- Witness for C10 at a registry holding only "moss": tag "granite"
misses, the flag is still raised and the sampler gets `-1`. -/
theorem setShaderTexture_miss_witness :
    "granite" ∉ texState.textureIDs.map TEXTURE_ID.tag ∧
    ((setShaderTexture texState rsPrior "granite").bUseTexture = true ∧
      (setShaderTexture texState rsPrior "granite").objectTexture = -1 ∧
      (setShaderTexture texState rsPrior "granite").model = rsPrior.model ∧
      (setShaderTexture texState rsPrior "granite").diffuseColor =
        rsPrior.diffuseColor ∧
      (setShaderTexture texState rsPrior "granite").objectColor =
        rsPrior.objectColor) :=
  ⟨by decide, setShaderTexture_miss texState rsPrior "granite" (by decide)⟩

/-! ### Teardown claim -/

theorem destroyGLTexturesAux_live_superset (l : List TEXTURE_ID)
    (gl : GLContext) (h : Int) (hmem : h ∈ gl.live) :
    h ∈ (destroyGLTexturesAux gl l).1.live := by
  induction l generalizing gl with
  | nil => exact hmem
  | cons e rest ih =>
    simp only [destroyGLTexturesAux, glGenTexture]
    exact ih ⟨gl.nextName + 1, gl.nextName :: gl.live⟩ (List.mem_cons_of_mem _ hmem)

theorem destroyGLTexturesAux_live_length (l : List TEXTURE_ID) (gl : GLContext) :
    (destroyGLTexturesAux gl l).1.live.length = gl.live.length + l.length := by
  induction l generalizing gl with
  | nil => rfl
  | cons e rest ih =>
    simp only [destroyGLTexturesAux, glGenTexture]
    rw [ih ⟨gl.nextName + 1, gl.nextName :: gl.live⟩]
    simp only [List.length_cons]
    ring

/-- C7 (code bug): the teardown path releases no texture at all.  The
loop body of `DestroyGLTextures` is `glGenTextures(1, &m_textureIDs[i].ID)`
— texture *generation*, not `glDeleteTextures` — so every handle that was
allocated before teardown is still allocated afterwards, and one fresh
texture object is additionally allocated per registered entry. -/
theorem destroyGLTextures_releases_nothing (s : SceneState) (h : Int)
    (hmem : h ∈ s.gl.live) :
    h ∈ (destroyGLTextures s).gl.live ∧
    (destroyGLTextures s).gl.live.length =
      s.gl.live.length + s.textureIDs.length := by
  constructor
  · exact destroyGLTexturesAux_live_superset s.textureIDs s.gl h hmem
  · exact destroyGLTexturesAux_live_length s.textureIDs s.gl

/-- Witness for C7: tearing down a registry holding the live texture 1
leaves texture 1 allocated and grows the allocated set to two textures. -/
theorem destroyGLTextures_releases_nothing_witness :
    (1 : Int) ∈ texState.gl.live ∧
    ((1 : Int) ∈ (destroyGLTextures texState).gl.live ∧
      (destroyGLTextures texState).gl.live.length =
        texState.gl.live.length + texState.textureIDs.length) :=
  ⟨by decide, destroyGLTextures_releases_nothing texState 1 (by decide)⟩

/-! ### Capacity claim -/

/-- A texture registry already holding the hardware maximum of 16 entries
(tags "t0" … "t15", handles 1 … 16). -/
def fullState : SceneState :=
  ⟨⟨17, (List.range 16).map (fun i => (i : Int) + 1)⟩,
    (List.range 16).map (fun i => ⟨(i : Int) + 1, "t" ++ toString i⟩), []⟩

/-- C8 (code bug): `CreateGLTexture` performs no capacity check — with
the registry already at the 16-slot hardware bound, a further valid
registration silently appends a 17th entry (in C++, a write past the end
of the fixed 16-element array) and reports success instead of failing
explicitly. -/
theorem register_past_capacity_appends :
    fullState.textureIDs.length = 16 ∧
    (createGLTexture fullState (some ⟨8, 8, 3⟩) "overflow").2 = true ∧
    (createGLTexture fullState
      (some ⟨8, 8, 3⟩) "overflow").1.textureIDs.length = 17 ∧
    findTextureSlot (createGLTexture fullState
      (some ⟨8, 8, 3⟩) "overflow").1 "overflow" = 16 := by
  refine ⟨?_, ?_, ?_, ?_⟩ <;> decide

/-! ### Transform composer lemmas -/

theorem glmNormalize_ex : glmNormalize ⟨1, 0, 0⟩ = ⟨1, 0, 0⟩ := by
  simp only [glmNormalize]
  rw [show (1 : ℝ) * 1 + 0 * 0 + 0 * 0 = 1 from by norm_num, Real.sqrt_one]
  norm_num

theorem glmNormalize_ey : glmNormalize ⟨0, 1, 0⟩ = ⟨0, 1, 0⟩ := by
  simp only [glmNormalize]
  rw [show (0 : ℝ) * 0 + 1 * 1 + 0 * 0 = 1 from by norm_num, Real.sqrt_one]
  norm_num

theorem glmNormalize_ez : glmNormalize ⟨0, 0, 1⟩ = ⟨0, 0, 1⟩ := by
  simp only [glmNormalize]
  rw [show (0 : ℝ) * 0 + 0 * 0 + 1 * 1 = 1 from by norm_num, Real.sqrt_one]
  norm_num

theorem glmRotate_axis_x (θ : ℝ) : glmRotate θ ⟨1, 0, 0⟩ = specRotateX θ := by
  ext i j
  fin_cases i <;> fin_cases j <;>
    simp [glmRotate, glmNormalize_ex, specRotateX]

theorem glmRotate_axis_y (θ : ℝ) : glmRotate θ ⟨0, 1, 0⟩ = specRotateY θ := by
  ext i j
  fin_cases i <;> fin_cases j <;>
    simp [glmRotate, glmNormalize_ey, specRotateY]

theorem glmRotate_axis_z (θ : ℝ) : glmRotate θ ⟨0, 0, 1⟩ = specRotateZ θ := by
  ext i j
  fin_cases i <;> fin_cases j <;>
    simp [glmRotate, glmNormalize_ez, specRotateZ]

theorem glmTranslate_eq_spec (v : Vec3r) : glmTranslate v = specTranslate v := by
  ext i j
  fin_cases i <;> fin_cases j <;>
    simp [glmTranslate, specTranslate, Matrix.one_apply, Matrix.vecHead, Matrix.vecTail]

theorem glmScale_eq_spec (v : Vec3r) : glmScale v = specScale v := by
  ext i j
  fin_cases i <;> fin_cases j <;>
    simp [glmScale, specScale, Matrix.diagonal, Matrix.vecHead, Matrix.vecTail]

theorem radians_zero : radians 0 = 0 := by
  simp [radians]

theorem specRotateX_zero : specRotateX 0 = 1 := by
  ext i j
  fin_cases i <;> fin_cases j <;>
    simp [specRotateX, Matrix.one_apply, Matrix.vecHead, Matrix.vecTail]

theorem specRotateY_zero : specRotateY 0 = 1 := by
  ext i j
  fin_cases i <;> fin_cases j <;>
    simp [specRotateY, Matrix.one_apply, Matrix.vecHead, Matrix.vecTail]

theorem specRotateZ_zero : specRotateZ 0 = 1 := by
  ext i j
  fin_cases i <;> fin_cases j <;>
    simp [specRotateZ, Matrix.one_apply, Matrix.vecHead, Matrix.vecTail]

theorem glmScale_one : glmScale ⟨1, 1, 1⟩ = 1 := by
  ext i j
  fin_cases i <;> fin_cases j <;>
    simp [glmScale, Matrix.one_apply, Matrix.vecHead, Matrix.vecTail]

theorem glmTranslate_zero : glmTranslate ⟨0, 0, 0⟩ = 1 := by
  ext i j
  fin_cases i <;> fin_cases j <;>
    simp [glmTranslate, Matrix.one_apply, Matrix.vecHead, Matrix.vecTail]

/-! ### Transform composer claims -/

/-- C2: for every scale vector, rotation triple (in degrees) and position
vector, `SetTransformations` pushes as the `model` uniform exactly the
matrix `Translate(position) * RotateZ(z) * RotateY(y) * RotateX(x) *
Scale(scale)`, where each angle is the degree value converted to radians
(`d · π / 180`) and each rotation factor is the standard-basis-axis
rotation matrix. -/
theorem setTransformations_composition (rs : RenderState) (scaleXYZ : Vec3r)
    (x y z : ℝ) (positionXYZ : Vec3r) :
    (setTransformations rs scaleXYZ x y z positionXYZ).model =
      specTranslate positionXYZ *
        specRotateZ (z * (Real.pi / 180)) *
        specRotateY (y * (Real.pi / 180)) *
        specRotateX (x * (Real.pi / 180)) *
        specScale scaleXYZ := by
  show composeModel scaleXYZ x y z positionXYZ = _
  rw [composeModel, glmRotate_axis_x, glmRotate_axis_y, glmRotate_axis_z,
    glmTranslate_eq_spec, glmScale_eq_spec]
  simp only [radians]

/-- C9: composing scale `(1,1,1)`, rotation `(0,0,0)` and position
`(0,0,0)` yields exactly the 4×4 identity matrix. -/
theorem compose_identity_matrix :
    composeModel ⟨1, 1, 1⟩ 0 0 0 ⟨0, 0, 0⟩ = 1 := by
  rw [composeModel, radians_zero, glmRotate_axis_x, glmRotate_axis_y,
    glmRotate_axis_z, specRotateX_zero, specRotateY_zero, specRotateZ_zero,
    glmScale_one, glmTranslate_zero]
  simp

end SceneMgr
